import Mathlib

/-!
Shallow embedding of the WebUntis API wrapper
(src/GoogleAppsScript/WebUntis.gs and src/unnamed/part_001; the two files
hold the same logic, once synchronous on UrlFetchApp and once async on
makeFetch — behaviourally identical for everything modelled here).

Modelling conventions:
* JavaScript fields that may be `undefined` or `null` are `Option` values;
  `none` models both (the code only ever distinguishes them by truthiness).
* JavaScript truthiness of a string-valued field is `strTruthy`:
  `undefined`, `null` and the empty string are falsy.
* Network effects are passed in explicitly: each operation takes the
  outcome of the upstream call it would perform as an argument
  (`Except Unit _`, where `Except.error ()` models the underlying request
  throwing), and operations report how many upstream calls they made where
  a claim depends on it.
* The mojibake glyph sequences in the format strings reproduce the bytes
  of the source files exactly (the files are double-encoded UTF-8).
-/

namespace WebUntis

/-- JavaScript truthiness of an optional string: `undefined`/`null` (here
`none`) and the empty string are falsy, every other string is truthy. -/
def strTruthy : Option String → Bool
  | none => false
  | some s => !(s == "")

/-- The JavaScript `a || b` chain step on optional strings: yields `a`
when `a` is truthy, otherwise `b`. -/
def jsOr (a b : Option String) : Option String :=
  if strTruthy a then a else b

/-- The JavaScript `a || dflt` with a string default: yields the string in
`a` when truthy, otherwise `dflt`. -/
def jsOrDefault (a : Option String) (dflt : String) : String :=
  match a with
  | some s => if s = "" then dflt else s
  | none => dflt

/-- The configuration object: the four auth-relevant fields that
`getAPIInstance` serializes into its config hash
(`JSON.stringify({school, username, password, server})`).
`JSON.stringify` with this fixed key order is injective on the four
string fields, so the hash is modelled by the record itself. -/
structure Config where
  school : String
  username : String
  password : String
  server : String
  deriving Repr, DecidableEq

/-- The mutable session fields of a `WebUntisAPI` object, together with
the config it was constructed from. -/
structure Instance where
  config : Config
  sessionId : Option String
  personId : Option Int
  personType : Option Int
  bearerToken : Option String
  deriving Repr, DecidableEq

/-- `new WebUntisAPI(config)`: all session fields start out `null`. -/
def newInstance (cfg : Config) : Instance :=
  { config := cfg, sessionId := none, personId := none, personType := none,
    bearerToken := none }

/-- The `result` payload of a successful `authenticate` JSON-RPC response. -/
structure AuthResult where
  sessionId : Option String
  personId : Option Int
  personType : Option Int
  deriving Repr, DecidableEq

/-- Outcome of the `authenticate` JSON-RPC exchange as `authenticate` sees
it: `Except.error ()` models `makeRequest` throwing (HTTP failure or a
JSON-RPC `error` field), `Except.ok none` a response whose body has no
`result`, and `Except.ok (some r)` a response with `result` `r`. -/
abbrev RpcOutcome := Except Unit (Option AuthResult)

/-- An `UrlFetchApp` HTTP response: status code and body text. -/
structure GASResponse where
  responseCode : Nat
  contentText : String
  deriving Repr, DecidableEq

/-- Outcome of the bearer-token HTTP request (`error` = the fetch threw). -/
abbrev BearerOutcome := Except Unit GASResponse

/-- `WebUntisAPI.getBearerToken`: on a 200 response whose trimmed body is
non-empty, stores the token and reports success; any other status, an
empty body, or a thrown fetch is swallowed and reported as `false`. -/
def getBearerToken (i : Instance) (resp : BearerOutcome) : Instance × Bool :=
  match resp with
  | .error _ => (i, false)
  | .ok r =>
    if r.responseCode = 200 then
      let tokenValue := r.contentText.trim
      if tokenValue = "" then (i, false)
      else ({ i with bearerToken := some tokenValue }, true)
    else (i, false)

/-- `WebUntisAPI.authenticate`: on a response with a `result`, stores
sessionId/personId/personType, then makes the best-effort bearer-token
call (its outcome never affects the returned boolean) and returns `true`.
A response without `result` returns `false`; a thrown request is caught
and also returns `false`. In both failure cases no field is touched. -/
def authenticate (i : Instance) (auth : RpcOutcome) (bearer : BearerOutcome) :
    Instance × Bool :=
  match auth with
  | .error _ => (i, false)
  | .ok none => (i, false)
  | .ok (some r) =>
    let i1 := { i with sessionId := r.sessionId, personId := r.personId,
                       personType := r.personType }
    ((getBearerToken i1 bearer).1, true)

/-- `WebUntisAPI.logout`. The returned `Nat` counts the upstream logout
calls made (0 or 1). When `this.sessionId` is falsy the method returns
`true` immediately with no upstream call. Otherwise it performs the
upstream call; only after that call returns are the four session fields
cleared. If the call throws, the `catch` returns `false` and the fields
keep their values. -/
def logout (i : Instance) (upstream : Except Unit Unit) : Instance × Bool × Nat :=
  if strTruthy i.sessionId then
    match upstream with
    | .ok _ =>
      ({ i with sessionId := none, personId := none, personType := none,
                bearerToken := none }, true, 1)
    | .error _ => (i, false, 1)
  else (i, true, 0)

/-- The module-level cache behind `getAPIInstance`: `globalAPIInstance`
and `globalConfigHash` (the hash modelled by the `Config` record, see
`Config`). -/
structure GlobalState where
  inst : Option Instance
  hash : Option Config
  deriving Repr, DecidableEq

/-- The fresh path of `getAPIInstance`: construct a new `WebUntisAPI`,
store it and the new config hash in the globals, authenticate it (one
authentication network call), and throw `Authentication failed` when
`authenticate` reports `false`. Returns the new global state, the result,
and the number of authentication calls performed (always 1 here). -/
def getAPIInstanceFresh (cfg : Config) (auth : RpcOutcome) (bearer : BearerOutcome) :
    GlobalState × Except String Instance × Nat :=
  let res := authenticate (newInstance cfg) auth bearer
  let st : GlobalState := { inst := some res.1, hash := some cfg }
  if res.2 then (st, .ok res.1, 1) else (st, .error "Authentication failed", 1)

/-- `getAPIInstance` (= `getWebUntisApiInstance` in part_001): reuses the
cached instance when one exists, the config hash matches, and the cached
`sessionId` is truthy; otherwise takes the fresh path. The `Nat` counts
authentication network calls (0 on reuse, 1 on the fresh path). -/
def getAPIInstance (cfg : Config) (st : GlobalState) (auth : RpcOutcome)
    (bearer : BearerOutcome) : GlobalState × Except String Instance × Nat :=
  match st.inst with
  | some i =>
    if st.hash = some cfg ∧ strTruthy i.sessionId then (st, .ok i, 0)
    else getAPIInstanceFresh cfg auth bearer
  | none => getAPIInstanceFresh cfg auth bearer

/-- The normalized response shape produced by `makeFetch`: `ok`, `status`,
and the body text behind the lazy `text()`/`json()` accessors (`json()`
is `JSON.parse` of the same body, so the body string is the state both
accessors read). -/
structure NormResponse where
  ok : Bool
  status : Nat
  text : String
  deriving Repr, DecidableEq

/-- The runtime environment `makeFetch` sniffs, together with the response
the available transport would deliver for the request at hand:
`gas` = `UrlFetchApp` is defined, `nodeFetch` = a global `fetch` is
defined (its response already has the normalized shape), `unsupported` =
neither capability exists. -/
inductive FetchEnv where
  | gas (response : GASResponse)
  | nodeFetch (response : NormResponse)
  | unsupported
  deriving Repr, DecidableEq

/-- `WebUntisAPI.makeFetch` (part_001): under `UrlFetchApp` it fetches with
`muteHttpExceptions: true` and wraps the result in the normalized shape
with `ok` = status in [200, 300); under a global `fetch` it returns that
response; otherwise it throws the unsupported-environment error. -/
def makeFetch : FetchEnv → Except String NormResponse
  | .gas r =>
    .ok { ok := decide (200 ≤ r.responseCode ∧ r.responseCode < 300),
          status := r.responseCode, text := r.contentText }
  | .nodeFetch r => .ok r
  | .unsupported =>
    .error "No fetch implementation available. This environment is not supported."

/-- A lesson object from the homework payload (`homeworkData.lessons`):
only `id` and `subject` are read. `subject` may be missing or empty. -/
structure Lesson where
  id : Nat
  subject : Option String
  deriving Repr, DecidableEq

/-- A homework record from the homework payload. The fields the core logic
reads; the object spread `{...hw, subjectName}` carries them through. -/
structure Homework where
  id : Nat
  lessonId : Nat
  dueDate : Nat
  completed : Bool
  subject : Option String
  text : Option String
  remark : Option String
  deriving Repr, DecidableEq

/-- An output record of `getHomeworkList`: the original homework record
(spread) plus the derived `subjectName`. -/
structure HomeworkOut where
  hw : Homework
  subjectName : String
  deriving Repr, DecidableEq

/-- The fetched homework payload after `getHomework` unwraps the `data`
envelope; `homeworks`/`lessons` may be absent (the code applies `|| []`). -/
structure HomeworkPayload where
  homeworks : Option (List Homework)
  lessons : Option (List Lesson)
  deriving Repr, DecidableEq

/-- The `lessonMap` lookup: building the map with
`lessons.forEach(l => lessonMap[l.id] = l.subject)` (or
`new Map(lessons.map(l => [l.id, l.subject]))`) lets a later lesson with
the same id overwrite an earlier one, so the lookup yields the last
matching lesson's subject. An absent key and a present key holding
`undefined` are both falsy in the `||` chain that consumes this value,
so both collapse to `none`. -/
def lessonSubject (lessons : List Lesson) (lessonId : Nat) : Option String :=
  ((lessons.filter (fun l => l.id == lessonId)).getLast?).bind (fun l => l.subject)

/-- `lessonMap[hw.lessonId] || hw.subject || 'Unknown Subject'`. -/
def subjectNameOf (lessons : List Lesson) (hw : Homework) : String :=
  jsOrDefault (jsOr (lessonSubject lessons hw.lessonId) hw.subject) "Unknown Subject"

/-- The filtering step of `getHomeworkList`: `homeworkData.homeworks || []`,
restricted to incomplete records when `onlyIncomplete` is set. -/
def filteredHomework (p : HomeworkPayload) (onlyIncomplete : Bool) : List Homework :=
  let homework := p.homeworks.getD []
  if onlyIncomplete then homework.filter (fun hw => !hw.completed) else homework

/-- The sorting step: `filteredHomework.sort((a, b) => parseInt(a.dueDate) -
parseInt(b.dueDate))`. `Array.prototype.sort` is stable (ECMA-262) and the
comparator is a consistent numeric key comparison, so the call computes
the stable ascending sort by `dueDate`, which insertion sort implements. -/
def sortByDueDate (l : List Homework) : List Homework :=
  l.insertionSort (fun a b => a.dueDate ≤ b.dueDate)

/-- `WebUntisAPI.getHomeworkList`, from the fetched payload on. The `days`
and `excludeToday` arguments only choose the date window of the fetch, so
they are covered by quantifying over the payload; `onlyIncomplete` is the
only flag the post-fetch logic reads. Returns `null` when the filtered
list is empty, otherwise the sorted records with `subjectName` attached. -/
def getHomeworkList (p : HomeworkPayload) (onlyIncomplete : Bool) :
    Option (List HomeworkOut) :=
  let lessons := p.lessons.getD []
  let sorted := sortByDueDate (filteredHomework p onlyIncomplete)
  if sorted = [] then none
  else some (sorted.map (fun hw => { hw := hw, subjectName := subjectNameOf lessons hw }))

/-- `'='.repeat(n)` and friends. -/
def repeatChar (c : Char) (n : Nat) : String :=
  String.mk (List.replicate n c)

/-- The single-line message `formatHomework` returns on a null or empty
list: `No ${onlyIncomplete ? 'open ' : ''}homework found for the next
${days} days.`. -/
def noHomeworkMessage (days : Nat) (onlyIncomplete : Bool) : String :=
  "No " ++ (if onlyIncomplete then "open " else "") ++
    "homework found for the next " ++ toString days ++ " days."

/-- `WebUntisAPI.formatWebUntisDate`: falsy input (the numeric field is
falsy exactly when 0) gives the sentinel, otherwise DD.MM.YYYY built from
substrings of the decimal string. -/
def formatWebUntisDate (date : Nat) : String :=
  if date = 0 then "Unknown Date"
  else
    let s := toString date
    ((s.drop 6).take 2) ++ "." ++ ((s.drop 4).take 2) ++ "." ++ (s.take 4)

/-- One block of the formatted homework report (the body of the `forEach`
in `formatHomework`); `idx` is the 0-based array index. -/
def formatHomeworkEntry (idx : Nat) (r : HomeworkOut) : String :=
  let dueDate := formatWebUntisDate r.hw.dueDate
  let subject := jsOrDefault (some r.subjectName) "Unknown Subject"
  let text := jsOrDefault r.hw.text "No description"
  let status := if r.hw.completed then "‚úÖ" else "üìã"
  toString (idx + 1) ++ ". " ++ status ++ " " ++ subject ++ "\n" ++
    "   üìÖ Due: " ++ dueDate ++ "\n" ++
    "   üìù " ++ text ++ "\n" ++
    repeatChar (Char.ofNat 45) 40 ++ "\n"

/-- `WebUntisAPI.formatHomework`. -/
def formatHomework (homeworkList : Option (List HomeworkOut)) (days : Nat)
    (onlyIncomplete : Bool) : String :=
  match homeworkList with
  | none => noHomeworkMessage days onlyIncomplete
  | some l =>
    if l.length = 0 then noHomeworkMessage days onlyIncomplete
    else
      "üìö HOMEWORK FOR NEXT " ++ toString days ++ " DAYS (" ++
        toString l.length ++ " " ++ (if onlyIncomplete then "open " else "") ++
        "assignments)\n" ++ repeatChar (Char.ofNat 61) 60 ++ "\n\n" ++
      String.join (l.enum.map (fun p => formatHomeworkEntry p.1 p.2))

/-- The `current` sub-object of a positional slot element in a grid entry. -/
structure CurrentInfo where
  displayName : Option String
  longName : Option String
  deriving Repr, DecidableEq

/-- One element of a positional slot array (`position1`/`position2`/
`position3`); only its `current` sub-object is read. -/
structure PosElem where
  current : Option CurrentInfo
  deriving Repr, DecidableEq

/-- The `duration` object of a grid entry. The source field `end` is a
Lean keyword, so it is named `stop` here. The values are the raw strings
handed to `new Date(...)`; the `Date` wrapper adds nothing the claims
read, so the records keep the raw strings. -/
structure Duration where
  start : String
  stop : String
  deriving Repr, DecidableEq

/-- A raw timetable grid entry; every field the processing code touches,
each optional because the payload is duck-typed. -/
structure GridEntry where
  ids : Option (List Nat)
  status : Option String
  type : Option String
  duration : Option Duration
  position1 : Option (List PosElem)
  position2 : Option (List PosElem)
  position3 : Option (List PosElem)
  icons : Option (List String)
  notesAll : Option String
  lessonInfo : Option String
  texts : Option (List String)
  deriving Repr, DecidableEq

/-- One day of the raw timetable payload. A `gridEntries` that is absent
or not an array (the code checks both) is modelled as `none`. -/
structure Day where
  date : String
  gridEntries : Option (List GridEntry)
  deriving Repr, DecidableEq

/-- The raw timetable payload handed to `processTimetableData`; `days`
may be absent. -/
structure TimetableData where
  days : Option (List Day)
  deriving Repr, DecidableEq

/-- The options object of `processTimetableData` after its defaults
(`skipCancelled: false, includeNotes: true`) are spread with the caller's
options. -/
structure ProcessOptions where
  skipCancelled : Bool
  includeNotes : Bool
  deriving Repr, DecidableEq

/-- A processed lesson record as built inside `processTimetableData`. -/
structure LessonRecord where
  id : Option Nat
  date : String
  startTime : String
  endTime : String
  type : Option String
  status : Option String
  teacher : String
  teacherLong : String
  subject : String
  subjectLong : String
  room : String
  roomLong : String
  icons : List String
  hasHomework : Bool
  isExam : Bool
  isCancelled : Bool
  isAdditional : Bool
  notes : String
  lessonInfo : String
  texts : List String
  rawEntry : GridEntry
  deriving Repr, DecidableEq

/-- `entry.positionN?.[0]?.current?.displayName`: the optional chain over
a positional slot. -/
def posDisplay (p : Option (List PosElem)) : Option String :=
  ((p.bind List.head?).bind (fun e => e.current)).bind (fun c => c.displayName)

/-- `entry.positionN?.[0]?.current?.longName`. -/
def posLong (p : Option (List PosElem)) : Option String :=
  ((p.bind List.head?).bind (fun e => e.current)).bind (fun c => c.longName)

/-- `entry.ids?.[0] || null`: the optional chain plus the `|| null`
fallback, which also maps a 0 first id (falsy) to `null`. -/
def entryId (ids : Option (List Nat)) : Option Nat :=
  match ids.bind List.head? with
  | some n => if n = 0 then none else some n
  | none => none

/-- The record-building `try` block of `processTimetableData` for one grid
entry. The only expression in it that can throw is `entry.duration.start`
when `duration` is absent (`new Date` itself never throws); that throw is
caught per entry and counted, which `none` models. Every other access is
optional-chained or has a `||` fallback. -/
def processEntry (dayDate : String) (includeNotes : Bool) (entry : GridEntry) :
    Option LessonRecord :=
  match entry.duration with
  | none => none
  | some dur => some
    { id := entryId entry.ids
      date := dayDate
      startTime := dur.start
      endTime := dur.stop
      type := entry.type
      status := entry.status
      teacher := jsOrDefault (posDisplay entry.position1) "Unknown Teacher"
      teacherLong := jsOrDefault (posLong entry.position1) ""
      subject := jsOrDefault (posDisplay entry.position2) "Unknown Subject"
      subjectLong := jsOrDefault (posLong entry.position2) ""
      room := jsOrDefault (posDisplay entry.position3) "Unknown Room"
      roomLong := jsOrDefault (posLong entry.position3) ""
      icons := entry.icons.getD []
      hasHomework := (entry.icons.getD []).contains "HOMEWORK"
      isExam := entry.type == some "EXAM"
      isCancelled := entry.status == some "CANCELLED"
      isAdditional := entry.status == some "ADDITIONAL"
      notes := if includeNotes then jsOrDefault entry.notesAll "" else ""
      lessonInfo := if includeNotes then jsOrDefault entry.lessonInfo "" else ""
      texts := if includeNotes then entry.texts.getD [] else []
      rawEntry := entry }

/-- The per-entry step of the inner `forEach`: a cancelled entry is
skipped (counted, not emitted) when `skipCancelled` is set, otherwise the
`try` block runs. -/
def processGridEntry (opts : ProcessOptions) (dayDate : String)
    (entry : GridEntry) : Option LessonRecord :=
  if opts.skipCancelled && (entry.status == some "CANCELLED") then none
  else processEntry dayDate opts.includeNotes entry

/-- The per-day step of the outer `forEach`: a day without a `gridEntries`
array contributes nothing. -/
def processDay (opts : ProcessOptions) (day : Day) : List LessonRecord :=
  (day.gridEntries.getD []).filterMap (processGridEntry opts day.date)

/-- `WebUntisAPI.processTimetableData`: `null` when the payload or its
`days` is absent, and `null` when zero lesson records survive processing;
otherwise the flat list of records in day order then entry order. -/
def processTimetableData (timetableData : Option TimetableData)
    (opts : ProcessOptions) : Option (List LessonRecord) :=
  match timetableData with
  | none => none
  | some td =>
    match td.days with
    | none => none
    | some days =>
      let lessons := days.flatMap (processDay opts)
      if lessons = [] then none else some lessons

/-- Whether a positional slot is absent, empty, or lacks a first element
with a `current` sub-object — the three shapes in which the optional
chain over the slot yields nothing. -/
def posMissing (p : Option (List PosElem)) : Prop :=
  p = none ∨ p = some [] ∨ ∃ rest, p = some ({ current := none } :: rest)

/-! Concrete sample data used by witnesses and counterexamples. -/

/-- A sample configuration. -/
def cfgA : Config :=
  { school := "gym", username := "alice", password := "pw", server := "srv.example" }

/-- `cfgA` with a changed `server` field. -/
def cfgB : Config :=
  { school := "gym", username := "alice", password := "pw", server := "other.example" }

/-- A session instance with all fields populated. -/
def instFull : Instance :=
  { config := cfgA, sessionId := some "SESS", personId := some 7,
    personType := some 5, bearerToken := some "TOK" }

/-- A sample homework record: incomplete, due 2025-01-01, lesson 1. -/
def hwM : Homework :=
  { id := 10, lessonId := 1, dueDate := 20250101, completed := false,
    subject := none, text := some "p.5", remark := none }

/-- The payload of the spec's homework example:
`lessons=[{id:1,subject:"M"}]`, one matching incomplete homework. -/
def payloadM : HomeworkPayload :=
  { homeworks := some [hwM], lessons := some [{ id := 1, subject := some "M" }] }

/-- Due 2025-01-03, lesson 1. -/
def hwSortA : Homework :=
  { id := 1, lessonId := 1, dueDate := 20250103, completed := false,
    subject := none, text := none, remark := none }

/-- Due 2025-01-01, lesson 1; placed before `hwSortC` in the raw array. -/
def hwSortB : Homework :=
  { id := 2, lessonId := 1, dueDate := 20250101, completed := false,
    subject := none, text := none, remark := none }

/-- Due 2025-01-01 like `hwSortB`, no matching lesson, own subject "E". -/
def hwSortC : Homework :=
  { id := 3, lessonId := 9, dueDate := 20250101, completed := false,
    subject := some "E", text := none, remark := none }

/-- A payload whose homework list is out of order and has a dueDate tie. -/
def payloadSort : HomeworkPayload :=
  { homeworks := some [hwSortA, hwSortB, hwSortC],
    lessons := some [{ id := 1, subject := some "M" }] }

/-- The sorted output list for `payloadSort`: the two 2025-01-01 records
first, in their original relative order, then the 2025-01-03 record. -/
def sortedOut : List HomeworkOut :=
  [{ hw := hwSortB, subjectName := "M" }, { hw := hwSortC, subjectName := "E" },
   { hw := hwSortA, subjectName := "M" }]

/-- A sample well-formed duration. -/
def durEx : Duration :=
  { start := "2025-01-07T08:00:00", stop := "2025-01-07T08:50:00" }

/-- A cancelled grid entry with a well-formed duration. -/
def entryCancelled : GridEntry :=
  { ids := some [42], status := some "CANCELLED", type := some "NORMAL_TEACHING_PERIOD",
    duration := some durEx, position1 := none, position2 := none, position3 := none,
    icons := none, notesAll := none, lessonInfo := none, texts := none }

/-- A grid entry exercising the three missing-position shapes: `position1`
absent, `position2` an empty array, `position3` a first element without a
`current` sub-object. -/
def entryBare : GridEntry :=
  { ids := none, status := none, type := none, duration := some durEx,
    position1 := none, position2 := some [], position3 := some [{ current := none }],
    icons := none, notesAll := none, lessonInfo := none, texts := none }

/-- A homework record whose own `subject` is "Bio", pointing at lesson 1. -/
def hwBio : Homework :=
  { id := 20, lessonId := 1, dueDate := 20250102, completed := false,
    subject := some "Bio", text := none, remark := none }

/-! Helper lemmas (shared across claims). -/

/-- `getBearerToken` never touches `sessionId`. -/
theorem getBearerToken_sessionId (i : Instance) (b : BearerOutcome) :
    (getBearerToken i b).1.sessionId = i.sessionId := by
  cases b with
  | error e => rfl
  | ok r =>
    unfold getBearerToken
    dsimp only
    split_ifs <;> rfl

/-! Claims C1 and C3: session lifecycle. -/

/-- C1, counterexample: on a fully populated session whose upstream logout
call throws, `logout` leaves `sessionId` (and the other fields) set and
reports failure — refuting the claim that the local session fields are
always cleared regardless of whether the upstream call succeeds. -/
theorem logout_failure_keeps_fields_counterexample :
    (logout instFull (Except.error ())).1 = instFull ∧
    (logout instFull (Except.error ())).1.sessionId = some "SESS" ∧
    (logout instFull (Except.error ())).2.1 = false := by
  refine ⟨rfl, rfl, rfl⟩

/-- C1, amended: `logout` is a no-op reporting success with no upstream
call when `sessionId` is null; when `sessionId` is present and the
upstream call succeeds it clears all four local session fields and
reports success; when the upstream call throws it leaves every field
unchanged and reports failure. (The third component counts upstream
logout calls.) -/
theorem logout_spec_amended (i : Instance) (u : Except Unit Unit) :
    (i.sessionId = none → logout i u = (i, true, 0)) ∧
    (strTruthy i.sessionId = true →
      logout i (Except.ok ()) =
        ({ i with sessionId := none, personId := none, personType := none,
                  bearerToken := none }, true, 1)) ∧
    (strTruthy i.sessionId = true →
      logout i (Except.error ()) = (i, false, 1)) := by
  refine ⟨fun h => ?_, fun h => ?_, fun h => ?_⟩
  · simp [logout, h, strTruthy]
  · simp [logout, h]
  · simp [logout, h]

/-- C1 witness: the amended statement evaluated on an empty session and on
`instFull` with both upstream outcomes. -/
theorem logout_spec_amended_witness :
    logout { config := cfgA, sessionId := none, personId := none,
             personType := none, bearerToken := none } (Except.ok ())
      = ({ config := cfgA, sessionId := none, personId := none,
           personType := none, bearerToken := none }, true, 0) ∧
    logout instFull (Except.ok ())
      = ({ config := cfgA, sessionId := none, personId := none,
           personType := none, bearerToken := none }, true, 1) ∧
    logout instFull (Except.error ()) = (instFull, false, 1) :=
  ⟨(logout_spec_amended _ _).1 rfl,
   (logout_spec_amended instFull (Except.ok ())).2.1 (by decide),
   (logout_spec_amended instFull (Except.error ())).2.2 (by decide)⟩

/-- C3: when the authentication response carries no `result` payload,
`authenticate` returns the failure value `false` (it is a total function
here — the code path throws nothing), and the instance is returned
unchanged: `sessionId`, `personId` and `personType` keep their values, so
if they were null they remain null. -/
theorem authenticate_noResult_fails (i : Instance) (b : BearerOutcome) :
    authenticate i (Except.ok none) b = (i, false) := rfl

/-! Claim C6: the empty-report message. -/

/-- C6: on a null list, `formatHomework` with `days = 5`,
`onlyIncomplete = true` returns exactly
"No open homework found for the next 5 days."; in general a null or empty
list yields the single `noHomeworkMessage` line, which inserts the word
"open " exactly when `onlyIncomplete` is true. -/
theorem formatHomework_empty_message (days : Nat) (o : Bool) :
    formatHomework none 5 true = "No open homework found for the next 5 days." ∧
    formatHomework none days o = noHomeworkMessage days o ∧
    formatHomework (some []) days o = noHomeworkMessage days o ∧
    noHomeworkMessage days o =
      "No " ++ (if o then "open " else "") ++
        "homework found for the next " ++ toString days ++ " days." := by
  refine ⟨rfl, rfl, rfl, rfl⟩

/-! Claim C9: the transport adapter. -/

/-- C9: under `UrlFetchApp`, `makeFetch` returns a normalized response for
every HTTP status — it never throws on non-2xx — whose `status` and body
mirror the raw response and whose `ok` is true exactly when the status is
in [200, 300); with neither transport available it fails fast with the
exact unsupported-environment error. -/
theorem makeFetch_normalized_no_throw :
    (∀ r : GASResponse, ∃ n : NormResponse,
        makeFetch (FetchEnv.gas r) = Except.ok n ∧
        n.status = r.responseCode ∧ n.text = r.contentText ∧
        (n.ok = true ↔ (200 ≤ r.responseCode ∧ r.responseCode < 300))) ∧
    makeFetch FetchEnv.unsupported =
      Except.error "No fetch implementation available. This environment is not supported." := by
  refine ⟨fun r => ⟨_, rfl, rfl, rfl, ?_⟩, rfl⟩
  simp [decide_eq_true_iff]

/-! Claim C2: session reuse in getAPIInstance. -/

/-- `authenticate` on a response with a `result` reports success and
stores that result's `sessionId` (the bearer-token attempt never touches
it). -/
theorem authenticate_okSome (i : Instance) (r : AuthResult) (b : BearerOutcome) :
    (authenticate i (Except.ok (some r)) b).2 = true ∧
    (authenticate i (Except.ok (some r)) b).1.sessionId = r.sessionId := by
  constructor
  · rfl
  · unfold authenticate
    dsimp only
    rw [getBearerToken_sessionId]

/-- C2: starting from an empty cache, a first `getAPIInstance` call whose
authentication response carries a truthy `sessionId` performs exactly one
authentication call; a second call with the identical config returns the
cached instance unchanged with zero further authentication calls (one in
total); a second call with a changed `server` field instead takes the
fresh path — a newly constructed instance — which performs one more
authentication call (two in total). -/
theorem getAPIInstance_session_reuse (cfg cfg2 : Config) (r : AuthResult)
    (b b2 : BearerOutcome) (auth2 : RpcOutcome)
    (hsess : strTruthy r.sessionId = true)
    (hsrv : cfg2.server ≠ cfg.server) :
    ∃ i1 st1,
      getAPIInstance cfg { inst := none, hash := none } (Except.ok (some r)) b
        = (st1, Except.ok i1, 1) ∧
      getAPIInstance cfg st1 auth2 b2 = (st1, Except.ok i1, 0) ∧
      getAPIInstance cfg2 st1 auth2 b2 = getAPIInstanceFresh cfg2 auth2 b2 ∧
      (getAPIInstanceFresh cfg2 auth2 b2).2.2 = 1 := by
  refine ⟨(authenticate (newInstance cfg) (Except.ok (some r)) b).1,
    { inst := some (authenticate (newInstance cfg) (Except.ok (some r)) b).1,
      hash := some cfg }, ?_, ?_, ?_, ?_⟩
  · show getAPIInstanceFresh cfg (Except.ok (some r)) b = _
    have h2 := (authenticate_okSome (newInstance cfg) r b).1
    simp [getAPIInstanceFresh, h2]
  · have hs : strTruthy ((authenticate (newInstance cfg) (Except.ok (some r)) b).1).sessionId
        = true := by
      rw [(authenticate_okSome (newInstance cfg) r b).2]
      exact hsess
    simp [getAPIInstance, hs]
  · have hne : (some cfg : Option Config) ≠ some cfg2 := fun h =>
      hsrv (congrArg Config.server (Option.some.inj h)).symm
    simp [getAPIInstance, hne]
  · rcases h2 : (authenticate (newInstance cfg2) auth2 b2).2 <;>
      simp [getAPIInstanceFresh, h2]

/-- C2 witness: the reuse scenario evaluated on `cfgA` and `cfgB` (which
differ exactly in `server`) with a concrete successful first
authentication. -/
theorem getAPIInstance_session_reuse_witness :
    ∃ i1 st1,
      getAPIInstance cfgA { inst := none, hash := none }
          (Except.ok (some { sessionId := some "SESS", personId := some 7,
                             personType := some 5 })) (Except.error ())
        = (st1, Except.ok i1, 1) ∧
      getAPIInstance cfgA st1 (Except.ok none) (Except.error ())
        = (st1, Except.ok i1, 0) ∧
      getAPIInstance cfgB st1 (Except.ok none) (Except.error ())
        = getAPIInstanceFresh cfgB (Except.ok none) (Except.error ()) ∧
      (getAPIInstanceFresh cfgB (Except.ok none) (Except.error ())).2.2 = 1 :=
  getAPIInstance_session_reuse cfgA cfgB _ _ _ _ (by decide) (by decide)

/-! Claim C4: null iff the filtered homework list is empty. -/

/-- The sorting step returns the empty list exactly on the empty list. -/
theorem sortByDueDate_eq_nil_iff (l : List Homework) :
    sortByDueDate l = [] ↔ l = [] := by
  constructor
  · intro h
    have hp := List.perm_insertionSort (fun a b => a.dueDate ≤ b.dueDate) l
    rw [sortByDueDate] at h
    rw [h] at hp
    exact (hp.symm).eq_nil
  · intro h
    rw [h]
    rfl

/-- C4: `getHomeworkList` returns null exactly when the list remaining
after the `onlyIncomplete` filter is empty (sorting and the subjectName
map preserve emptiness and length), and a non-null result is never the
empty array. -/
theorem getHomeworkList_none_iff_filtered_empty (p : HomeworkPayload) (o : Bool) :
    (getHomeworkList p o = none ↔ filteredHomework p o = []) ∧
    (∀ l, getHomeworkList p o = some l → l ≠ []) := by
  unfold getHomeworkList
  by_cases h : sortByDueDate (filteredHomework p o) = []
  · refine ⟨?_, ?_⟩
    · rw [if_pos h]
      simp [(sortByDueDate_eq_nil_iff _).mp h]
    · intro l hl
      rw [if_pos h] at hl
      exact absurd hl (by simp)
  · refine ⟨?_, ?_⟩
    · rw [if_neg h]
      simp only [iff_iff_implies_and_implies]
      constructor
      · intro hc
        exact absurd hc (by simp)
      · intro hc
        exact absurd ((sortByDueDate_eq_nil_iff _).mpr hc) h
    · intro l hl
      rw [if_neg h] at hl
      have : l = (sortByDueDate (filteredHomework p o)).map
          (fun hw => { hw := hw, subjectName := subjectNameOf (p.lessons.getD []) hw }) :=
        (Option.some.inj hl).symm
      rw [this]
      simpa using h

/-- C4 witness: the spec's homework example — one incomplete record with
a matching lesson — yields a non-null, non-empty result, with
subjectName "M". -/
theorem getHomeworkList_none_iff_filtered_empty_witness :
    getHomeworkList payloadM true = some [{ hw := hwM, subjectName := "M" }] ∧
    ([{ hw := hwM, subjectName := "M" }] : List HomeworkOut) ≠ [] :=
  ⟨by decide, (getHomeworkList_none_iff_filtered_empty payloadM true).2 _ (by decide)⟩

/-! Claim C5: ascending stable sort by dueDate. -/

/-- The sorting step produces a list that is `Sorted` by the numeric
`dueDate` key. -/
theorem sortByDueDate_sorted (l : List Homework) :
    (sortByDueDate l).Sorted (fun a b => a.dueDate ≤ b.dueDate) := by
  haveI : IsTotal Homework (fun a b => a.dueDate ≤ b.dueDate) :=
    ⟨fun a b => Nat.le_total a.dueDate b.dueDate⟩
  haveI : IsTrans Homework (fun a b => a.dueDate ≤ b.dueDate) :=
    ⟨fun a b c hab hbc => Nat.le_trans hab hbc⟩
  exact List.sorted_insertionSort _ l

/-- Inserting a record into a list keeps, for every dueDate value `d`, the
subsequence of records due on `d` intact: the inserted record lands in
front of it when it is itself due on `d` (all records it passes over are
due strictly earlier), and elsewhere otherwise. -/
theorem orderedInsert_filter_due (x : Homework) (l : List Homework) (d : Nat) :
    (List.orderedInsert (fun a b => a.dueDate ≤ b.dueDate) x l).filter
        (fun h => h.dueDate == d)
      = if x.dueDate = d
        then x :: l.filter (fun h => h.dueDate == d)
        else l.filter (fun h => h.dueDate == d) := by
  induction l with
  | nil =>
    by_cases hx : x.dueDate = d <;> simp [List.orderedInsert, hx]
  | cons y ys ih =>
    by_cases hle : x.dueDate ≤ y.dueDate
    · simp only [List.orderedInsert]
      rw [if_pos hle]
      by_cases hx : x.dueDate = d <;> by_cases hy : y.dueDate = d <;>
        simp [List.filter_cons, hx, hy]
    · simp only [List.orderedInsert]
      rw [if_neg hle]
      by_cases hy : y.dueDate = d
      · have hx : ¬x.dueDate = d := fun hxx => hle (by rw [hxx, hy])
        simp [List.filter_cons, hy, hx, ih]
      · by_cases hx : x.dueDate = d <;>
          simp [List.filter_cons, hy, hx, ih]

/-- The sorting step is stable: for every dueDate value `d`, the records
due on `d` appear in the sorted list exactly as they appear in the input
list. -/
theorem sortByDueDate_filter_due (l : List Homework) (d : Nat) :
    (sortByDueDate l).filter (fun h => h.dueDate == d)
      = l.filter (fun h => h.dueDate == d) := by
  induction l with
  | nil => rfl
  | cons x xs ih =>
    show (List.orderedInsert _ x (sortByDueDate xs)).filter _ = _
    rw [orderedInsert_filter_due]
    by_cases hx : x.dueDate = d <;> simp [hx, List.filter_cons, ih]

/-- C5: a non-null `getHomeworkList` result is sorted ascending by numeric
`dueDate` — for all indices `i < j` the record at `i` is due no later
than the record at `j` — and the sort is stable: for every dueDate value,
the records carrying it keep the relative order they had in the filtered
input list. -/
theorem getHomeworkList_sorted_stable (p : HomeworkPayload) (o : Bool)
    (l : List HomeworkOut) (h : getHomeworkList p o = some l) :
    (∀ (i j : Nat) (hj : j < l.length) (hij : i < j),
        (l.get ⟨i, Nat.lt_trans hij hj⟩).hw.dueDate ≤ (l.get ⟨j, hj⟩).hw.dueDate) ∧
    (∀ d : Nat, (l.map (fun r => r.hw)).filter (fun hw => hw.dueDate == d)
        = (filteredHomework p o).filter (fun hw => hw.dueDate == d)) := by
  unfold getHomeworkList at h
  by_cases hnil : sortByDueDate (filteredHomework p o) = []
  · rw [if_pos hnil] at h
    exact absurd h (by simp)
  · rw [if_neg hnil] at h
    have hl : l = (sortByDueDate (filteredHomework p o)).map
        (fun hw => { hw := hw, subjectName := subjectNameOf (p.lessons.getD []) hw }) :=
      (Option.some.inj h).symm
    constructor
    · intro i j hj hij
      have hs : l.Pairwise (fun a b => a.hw.dueDate ≤ b.hw.dueDate) := by
        rw [hl]
        exact List.Pairwise.map _ (fun a b hab => hab) (sortByDueDate_sorted _)
      exact List.pairwise_iff_get.mp hs ⟨i, Nat.lt_trans hij hj⟩ ⟨j, hj⟩ hij
    · intro d
      have hmap : l.map (fun r => r.hw) = sortByDueDate (filteredHomework p o) := by
        rw [hl, List.map_map]
        exact List.map_id _
      rw [hmap, sortByDueDate_filter_due]

/-- C5 witness: a payload with an out-of-order list and a dueDate tie —
the tied records keep their original relative order in the output. -/
theorem getHomeworkList_sorted_stable_witness :
    (sortedOut.map (fun r => r.hw)).filter (fun hw => hw.dueDate == 20250101)
      = (filteredHomework payloadSort true).filter (fun hw => hw.dueDate == 20250101) :=
  (getHomeworkList_sorted_stable payloadSort true sortedOut (by decide)).2 20250101

/-! Claims C7 and C8: timetable flattening. -/

/-- A grid entry with a present duration always yields a record, and the
record's fields are the ones `processEntry` computes. -/
theorem processEntry_of_duration (dayDate : String) (inc : Bool) (e : GridEntry)
    (dur : Duration) (hdur : e.duration = some dur) :
    ∃ rec, processEntry dayDate inc e = some rec ∧
      rec.isCancelled = (e.status == some "CANCELLED") ∧
      rec.teacher = jsOrDefault (posDisplay e.position1) "Unknown Teacher" ∧
      rec.teacherLong = jsOrDefault (posLong e.position1) "" ∧
      rec.subject = jsOrDefault (posDisplay e.position2) "Unknown Subject" ∧
      rec.subjectLong = jsOrDefault (posLong e.position2) "" ∧
      rec.room = jsOrDefault (posDisplay e.position3) "Unknown Room" ∧
      rec.roomLong = jsOrDefault (posLong e.position3) "" := by
  unfold processEntry
  rw [hdur]
  exact ⟨_, rfl, rfl, rfl, rfl, rfl, rfl, rfl, rfl⟩

/-- C7: a payload of one day holding a single CANCELLED grid entry with a
well-formed duration flattens to null under `skipCancelled = true` (the
entry is skipped, zero records survive) and to a one-element list whose
record has `isCancelled = true` under `skipCancelled = false`. -/
theorem processTimetableData_cancelled (dayDate : String) (e : GridEntry)
    (dur : Duration) (inc : Bool)
    (hst : e.status = some "CANCELLED") (hdur : e.duration = some dur) :
    processTimetableData
        (some { days := some [{ date := dayDate, gridEntries := some [e] }] })
        { skipCancelled := true, includeNotes := inc } = none ∧
    ∃ rec, processTimetableData
        (some { days := some [{ date := dayDate, gridEntries := some [e] }] })
        { skipCancelled := false, includeNotes := inc } = some [rec] ∧
      rec.isCancelled = true := by
  constructor
  · simp [processTimetableData, processDay, processGridEntry, hst]
  · obtain ⟨rec, hrec, hcan, -⟩ := processEntry_of_duration dayDate inc e dur hdur
    refine ⟨rec, ?_, ?_⟩
    · simp [processTimetableData, processDay, processGridEntry, hrec]
    · rw [hcan, hst]
      rfl

/-- C7 witness: the cancelled-entry scenario on a concrete entry. -/
theorem processTimetableData_cancelled_witness :
    processTimetableData
        (some { days := some [{ date := "2025-01-07", gridEntries := some [entryCancelled] }] })
        { skipCancelled := true, includeNotes := true } = none ∧
    ∃ rec, processTimetableData
        (some { days := some [{ date := "2025-01-07", gridEntries := some [entryCancelled] }] })
        { skipCancelled := false, includeNotes := true } = some [rec] ∧
      rec.isCancelled = true :=
  processTimetableData_cancelled "2025-01-07" entryCancelled durEx true rfl rfl

/-- A positional slot in one of the three missing shapes resolves to
nothing under both optional chains. -/
theorem posMissing_resolves (p : Option (List PosElem)) (h : posMissing p) :
    posDisplay p = none ∧ posLong p = none := by
  rcases h with h | h | ⟨rest, h⟩ <;> subst h <;> exact ⟨rfl, rfl⟩

/-- C8: a grid entry whose three positional slots are each absent, empty,
or lacking a first element with a `current` sub-object — but whose
duration is present — is still turned into a record (no throw): directly
by `processEntry`, and by `processTimetableData` on a payload carrying
it; the short-name fields hold the three sentinels and the long-name
fields the empty string. -/
theorem processEntry_missing_positions_sentinels (dayDate : String) (inc : Bool)
    (e : GridEntry) (dur : Duration)
    (h1 : posMissing e.position1) (h2 : posMissing e.position2)
    (h3 : posMissing e.position3) (hdur : e.duration = some dur) :
    ∃ rec, processEntry dayDate inc e = some rec ∧
      processTimetableData
          (some { days := some [{ date := dayDate, gridEntries := some [e] }] })
          { skipCancelled := false, includeNotes := inc } = some [rec] ∧
      rec.teacher = "Unknown Teacher" ∧ rec.teacherLong = "" ∧
      rec.subject = "Unknown Subject" ∧ rec.subjectLong = "" ∧
      rec.room = "Unknown Room" ∧ rec.roomLong = "" := by
  obtain ⟨rec, hrec, -, ht, htl, hs, hsl, hr, hrl⟩ :=
    processEntry_of_duration dayDate inc e dur hdur
  refine ⟨rec, hrec, ?_, ?_, ?_, ?_, ?_, ?_, ?_⟩
  · simp [processTimetableData, processDay, processGridEntry, hrec]
  · rw [ht, (posMissing_resolves _ h1).1]
    rfl
  · rw [htl, (posMissing_resolves _ h1).2]
    rfl
  · rw [hs, (posMissing_resolves _ h2).1]
    rfl
  · rw [hsl, (posMissing_resolves _ h2).2]
    rfl
  · rw [hr, (posMissing_resolves _ h3).1]
    rfl
  · rw [hrl, (posMissing_resolves _ h3).2]
    rfl

/-- C8 witness: `entryBare` exercises all three missing-slot shapes at
once and still yields a record with the sentinel fields. -/
theorem processEntry_missing_positions_sentinels_witness :
    ∃ rec, processEntry "2025-01-07" true entryBare = some rec ∧
      processTimetableData
          (some { days := some [{ date := "2025-01-07", gridEntries := some [entryBare] }] })
          { skipCancelled := false, includeNotes := true } = some [rec] ∧
      rec.teacher = "Unknown Teacher" ∧ rec.teacherLong = "" ∧
      rec.subject = "Unknown Subject" ∧ rec.subjectLong = "" ∧
      rec.room = "Unknown Room" ∧ rec.roomLong = "" :=
  processEntry_missing_positions_sentinels "2025-01-07" true entryBare durEx
    (Or.inl rfl) (Or.inr (Or.inl rfl)) (Or.inr (Or.inr ⟨[], rfl⟩)) rfl

/-! Claim C10: subjectName fallback is by falsiness. -/

/-- C10: the subjectName fallback of `getHomeworkList` triggers on
falsiness, not absence: when the lesson matched by `lessonId` exists (the
lookup yields the last matching lesson) but its `subject` is falsy, the
chain falls through to the record's own `subject` field and then to the
sentinel; consequently `subjectNameOf` never yields the empty string, and
every record of a non-null `getHomeworkList` result has a truthy
`subjectName`. -/
theorem subjectName_falsy_fallback :
    (∀ (lessons : List Lesson) (hw : Homework) (lsn : Lesson),
        (lessons.filter (fun l => l.id == hw.lessonId)).getLast? = some lsn →
        strTruthy lsn.subject = false →
        subjectNameOf lessons hw = jsOrDefault hw.subject "Unknown Subject") ∧
    (∀ (lessons : List Lesson) (hw : Homework), subjectNameOf lessons hw ≠ "") ∧
    (∀ (p : HomeworkPayload) (o : Bool) (l : List HomeworkOut),
        getHomeworkList p o = some l → ∀ r ∈ l, r.subjectName ≠ "") := by
  have hne : ∀ (lessons : List Lesson) (hw : Homework), subjectNameOf lessons hw ≠ "" := by
    intro lessons hw
    unfold subjectNameOf
    cases h : jsOr (lessonSubject lessons hw.lessonId) hw.subject with
    | none => simp [jsOrDefault]
    | some s =>
      by_cases hs : s = "" <;> simp [jsOrDefault, hs]
  refine ⟨?_, hne, ?_⟩
  · intro lessons hw lsn hlast hfal
    unfold subjectNameOf lessonSubject
    rw [hlast]
    show jsOrDefault (jsOr lsn.subject hw.subject) "Unknown Subject" = _
    unfold jsOr
    rw [hfal]
    simp
  · intro p o l h r hr
    unfold getHomeworkList at h
    by_cases hnil : sortByDueDate (filteredHomework p o) = []
    · rw [if_pos hnil] at h
      exact absurd h (by simp)
    · rw [if_neg hnil] at h
      have hl : l = (sortByDueDate (filteredHomework p o)).map
          (fun hw => { hw := hw, subjectName := subjectNameOf (p.lessons.getD []) hw }) :=
        (Option.some.inj h).symm
      rw [hl] at hr
      obtain ⟨hw, -, hsub⟩ := List.mem_map.mp hr
      rw [← hsub]
      exact hne _ hw

/-- C10 witness: a lesson list whose matching lesson has the empty string
as subject — the empty string is skipped and the record's own subject
"Bio" wins; the result is truthy. -/
theorem subjectName_falsy_fallback_witness :
    subjectNameOf [{ id := 1, subject := some "" }] hwBio
        = jsOrDefault hwBio.subject "Unknown Subject" ∧
    subjectNameOf [{ id := 1, subject := some "" }] hwBio ≠ "" :=
  ⟨subjectName_falsy_fallback.1 _ hwBio { id := 1, subject := some "" } (by decide) (by decide),
   subjectName_falsy_fallback.2.1 _ hwBio⟩

end WebUntis
